import Mathlib

/-!
# SQLite3-WinRT: the connection wrapper of `SQLite3Component/Database.cpp`

A shallow embedding of the `Database` ref class: its factory and constructor, the
change dispatch (`UpdateHook`, `OnChange`), the four execution entry points with their
error capture, `VacuumAsync`, and the two hook functions registered with the engine
(`WinLocaleCollateUtf16`, `TranslateFuncUtf16`).

Conventions of the embedding.

* A method that can throw returns its `Except Fault _` result together with the state it
  leaves behind: assignments made before a `throw` stay visible to the caller.
* Calls that leave the object (engine registration, closing a handle, posting work to
  the dispatcher, raising an event) are recorded as a list of `Effect`s, oldest first.
* The SQL engine, the Statement class, `CompareStringEx`, the resource loader and the
  helpers of `Common.h` are not part of this translation unit; they enter as parameters.
-/

namespace SQLite3

/-! ## Data model -/

/-- A native `sqlite3*` connection handle. -/
abbrev Handle := Nat

/-- A `CoreDispatcher^`: the work queue of one UI thread. -/
abbrev DispatcherRef := Nat

/-- The identity of a `Database^` object (what `this` denotes). -/
abbrev ObjRef := Nat

/-- A delegate subscribed to one of the `Insert`, `Update`, `Delete` events. -/
abbrev ListenerRef := Nat

/-- An `EachCallback^` delegate. -/
abbrev EachCallback := Nat

/-- A `Platform::String^` whose layout does not matter (SQL text, messages, names). -/
abbrev PlatformString := String

/-- A `char const*` handed over by the engine. -/
abbrev CStr := String

/-- UTF-16 text as a sequence of 16-bit code units, without a terminator. -/
abbrev WChars := List Nat

def SQLITE_OK : Int := 0
def SQLITE_DELETE : Int := 9
def SQLITE_INSERT : Int := 18
def SQLITE_UPDATE : Int := 23
def SQLITE_TEXT : Int := 3

/-- The `Platform::Exception^` objects that travel through this file. -/
inductive Fault where
  /-- Raised by `throwSQLiteError(resultCode)`. -/
  | sqliteError (resultCode : Int)
  /-- A `Platform::InvalidArgumentException`. -/
  | invalidArgument
  /-- A `Platform::NullReferenceException`: a member access through a null `^`. -/
  | nullReference
  /-- Any other `Platform::Exception`, identified by its HRESULT. -/
  | other (hresult : Int)
  deriving DecidableEq, Repr

/-- Modelled from the spec: `throwSQLiteError` is declared in `Common.h`, which is not
among the sources. Section 4.1 and section 7 say that the failure raised for a
non-success status is "an error carrying the engine's status code"; the helper always
raises and the fault carries its argument. -/
def throwSQLiteError (resultCode : Int) : Fault :=
  Fault.sqliteError resultCode

/-- The value struct `ChangeEvent` filled in by `OnChange`. -/
structure ChangeEvent where
  RowId : Int
  TableName : PlatformString
  deriving DecidableEq, Repr

/-- The three events of the class; each has its own set of subscribed listeners. -/
inductive ChangeKind where
  | Insert
  | Update
  | Delete
  deriving DecidableEq, Repr

/-- One of the three lambdas `[this, event]() { Kind(this, event); }` built by
`OnChange`: the event it raises and the two captured values. -/
structure DispatchedHandler where
  kind : ChangeKind
  sender : ObjRef
  event : ChangeEvent
  deriving DecidableEq, Repr

inductive CoreDispatcherPriority where
  | Low
  | Normal
  | High
  deriving DecidableEq, Repr

inductive TextEncoding where
  | SQLITE_UTF8
  | SQLITE_UTF16
  deriving DecidableEq, Repr

/-- The hook functions of this file that the constructor hands to the engine. -/
inductive HookFunction where
  | UpdateHook
  | WinLocaleCollateUtf16
  | WinLocaleCollateUtf8
  | TranslateFuncUtf16
  deriving DecidableEq, Repr

/-- The calls by which the code of this file acts on the engine and on the host. -/
inductive Effect where
  | sqlite3_open16 (path : PlatformString)
  | sqlite3_close (sqlite : Handle)
  | sqlite3_update_hook (sqlite : Handle) (hook : HookFunction) (data : ObjRef)
  | sqlite3_create_collation_v2 (sqlite : Handle) (name : String) (enc : TextEncoding)
      (data : ObjRef) (compare : HookFunction)
  | sqlite3_create_function_v2 (sqlite : Handle) (name : String) (nArg : Int)
      (enc : TextEncoding) (func : HookFunction)
  /-- The call `CoreWindow::GetForCurrentThread()`. -/
  | getForCurrentThread
  /-- The call `dispatcher->RunAsync(priority, handler)`: one unit of work is appended to
  the queue of `dispatcher`; nothing of `handler` runs during the call. -/
  | dispatcherRunAsync (dispatcher : DispatcherRef) (priority : CoreDispatcherPriority)
      (handler : DispatchedHandler)
  /-- One listener is called with `(sender, event)`. -/
  | listenerCall (listener : ListenerRef) (sender : ObjRef) (event : ChangeEvent)
  deriving DecidableEq, Repr

/-- The fields of a `Database` object, as far as `Database.cpp` uses them, and the
reference `this` under which the object is known. -/
structure Database where
  this : ObjRef
  collationLanguage : Option PlatformString
  dispatcher : DispatcherRef
  sqlite : Handle
  fireEvents : Bool
  lastErrorMsg : PlatformString
  /-- Listeners subscribed to the `Insert` event. -/
  Insert : List ListenerRef
  /-- Listeners subscribed to the `Update` event. -/
  Update : List ListenerRef
  /-- Listeners subscribed to the `Delete` event. -/
  Delete : List ListenerRef
  deriving DecidableEq, Repr

/-- Modelled from the spec: the declaration of the member `fireEvents` lives in
`Database.h`, which is not among the sources, and the constructor in `Database.cpp`
does not mention the member. Section 4.2 says "Default state: `Enabled`", so the
declaration is taken to start the flag at `true`. -/
def fireEventsDeclared : Bool := true

/-- The listeners subscribed to the event `kind` of `db`. -/
def Database.listeners (db : Database) : ChangeKind → List ListenerRef
  | .Insert => db.Insert
  | .Update => db.Update
  | .Delete => db.Delete

/-- Running a dispatched handler raises its event on the object: every listener
subscribed at that moment is called with the captured `this` and `event`. -/
def DispatchedHandler.invoke (handler : DispatchedHandler) (db : Database) : List Effect :=
  (db.listeners handler.kind).map
    (fun listener => Effect.listenerCall listener handler.sender handler.event)

/-! ## Construction -/

/-- The constructor `Database::Database(sqlite, dispatcher)`, run on the fresh object
`this`: the member initialisers, then the four registrations with the engine. (Named
`construct` because a declaration `Database.Database` would shadow the type.) -/
def Database.construct (this : ObjRef) (sqlite : Handle) (dispatcher : DispatcherRef) :
    Database × List Effect :=
  ({ this := this
     collationLanguage := none
     dispatcher := dispatcher
     sqlite := sqlite
     fireEvents := fireEventsDeclared
     lastErrorMsg := ""
     Insert := []
     Update := []
     Delete := [] },
   [ Effect.sqlite3_update_hook sqlite .UpdateHook this,
     Effect.sqlite3_create_collation_v2 sqlite "WINLOCALE" .SQLITE_UTF16 this
       .WinLocaleCollateUtf16,
     Effect.sqlite3_create_collation_v2 sqlite "WINLOCALE" .SQLITE_UTF8 this
       .WinLocaleCollateUtf8,
     Effect.sqlite3_create_function_v2 sqlite "APPTRANSLATE" 1 .SQLITE_UTF16
       .TranslateFuncUtf16 ])

/-- The factory `Database::Open(dbPath)`.

* `sqlite3_open16` is the engine call: it yields the status code and the handle it
  stored through the out-parameter.
* `currentWindow` is what `CoreWindow::GetForCurrentThread()` has to offer: the
  dispatcher of the calling thread's window, or nothing when the thread owns no window
  (the member access through the null reference then raises).
* `fresh` is the reference of the object allocated by `ref new`. -/
def Database.Open (sqlite3_open16 : PlatformString → Int × Handle)
    (currentWindow : Option DispatcherRef) (fresh : ObjRef) (dbPath : PlatformString) :
    Except Fault Database × List Effect :=
  let (ret, sqlite) := sqlite3_open16 dbPath
  if ret ≠ SQLITE_OK then
    (.error (throwSQLiteError ret),
     [Effect.sqlite3_open16 dbPath, Effect.sqlite3_close sqlite])
  else
    match currentWindow with
    | none =>
      (.error Fault.nullReference, [Effect.sqlite3_open16 dbPath, Effect.getForCurrentThread])
    | some dispatcher =>
      let (db, registrations) := Database.construct fresh sqlite dispatcher
      (.ok db, [Effect.sqlite3_open16 dbPath, Effect.getForCurrentThread] ++ registrations)

/-! ## Change dispatch -/

/-- The method `Database::OnChange`. The object after the call is returned next to the
calls the method made. `ToPlatformString` is the helper of `Common.h`. -/
def Database.OnChange (ToPlatformString : CStr → PlatformString) (db : Database)
    (action : Int) (dbName : CStr) (tableName : CStr) (rowId : Int) :
    Database × List Effect :=
  let _ := dbName
  if db.fireEvents then
    let event : ChangeEvent := { RowId := rowId, TableName := ToPlatformString tableName }
    let handler : Option DispatchedHandler :=
      if action = SQLITE_INSERT then
        some { kind := .Insert, sender := db.this, event := event }
      else if action = SQLITE_UPDATE then
        some { kind := .Update, sender := db.this, event := event }
      else if action = SQLITE_DELETE then
        some { kind := .Delete, sender := db.this, event := event }
      else
        none
    match handler with
    | some handler =>
      (db, [Effect.dispatcherRunAsync db.dispatcher CoreDispatcherPriority.Normal handler])
    | none => (db, [])
  else
    (db, [])

/-- The static `Database::UpdateHook`: `data` is the object registered by the
constructor; the call is forwarded to its `OnChange`. -/
def Database.UpdateHook (ToPlatformString : CStr → PlatformString) (data : Database)
    (action : Int) (dbName : CStr) (tableName : CStr) (rowId : Int) :
    Database × List Effect :=
  data.OnChange ToPlatformString action dbName tableName rowId

/-! ## Execution pipeline -/

/-- A parameter container: a `ParameterVector^` or a `ParameterMap^`, either of which
may be the null reference. -/
inductive ParameterContainer (Value : Type) where
  | vector (params : Option (List Value))
  | map (params : Option (List (String × Value)))

/-- A row change reported by the engine through the update hook. -/
structure RowChange where
  action : Int
  dbName : CStr
  tableName : CStr
  rowId : Int
  deriving DecidableEq, Repr

/-- What one execution of a statement does, seen from the wrapper: the row changes the
engine reports through the update hook while it steps, in order; the state of the
engine when control is back in the wrapper (by return or by throw, the statement object
released); and the value returned or the exception thrown. -/
structure Step (E α : Type) where
  hooks : List RowChange
  engine : E
  result : Except Fault α

/-- The collaborators outside `Database.cpp` that the execution pipeline calls, over an
engine state `E` and a statement type `Stmt`: the class `Statement` (`Statement.h`), the
engine call `sqlite3_errmsg16` and the helper `ToPlatformString` (`Common.h`). -/
structure Services (E Stmt Value : Type) where
  /-- The static `Statement::Prepare(sqlite, sql)`. -/
  Prepare : Handle → PlatformString → E → E × Except Fault Stmt
  /-- The method `statement->Bind(params)`, for either container type. -/
  Bind : Stmt → ParameterContainer Value → E → E × Except Fault Unit
  Run : Stmt → E → Step E Unit
  One : Stmt → E → Step E PlatformString
  All : Stmt → E → Step E PlatformString
  Each : Stmt → EachCallback → DispatcherRef → E → Step E Unit
  /-- The current error message of the connection, `sqlite3_errmsg16(sqlite)`. -/
  sqlite3_errmsg16 : E → Handle → PlatformString
  ToPlatformString : CStr → PlatformString

/-- What a method of the pipeline leaves behind: its result, the object, the engine and
the calls made on the way. -/
structure Outcome (E α : Type) where
  result : Except Fault α
  db : Database
  engine : E
  effects : List Effect

/-- The engine calls the registered `UpdateHook` once for each row change of a step, on
the calling thread, before the step is over. -/
def Database.reportChanges (ToPlatformString : CStr → PlatformString) :
    Database → List RowChange → Database × List Effect
  | db, [] => (db, [])
  | db, change :: rest =>
    let (db1, first) :=
      Database.UpdateHook ToPlatformString db change.action change.dbName change.tableName
        change.rowId
    let (db2, others) := Database.reportChanges ToPlatformString db1 rest
    (db2, first ++ others)

variable {E Stmt Value : Type}

/-- The template `Database::PrepareAndBind(sql, params)`. -/
def Database.PrepareAndBind (svc : Services E Stmt Value) (db : Database) (engine : E)
    (sql : PlatformString) (params : ParameterContainer Value) : E × Except Fault Stmt :=
  match svc.Prepare db.sqlite sql engine with
  | (engine1, .error e) => (engine1, .error e)
  | (engine1, .ok statement) =>
    match svc.Bind statement params engine1 with
    | (engine2, .error e) => (engine2, .error e)
    | (engine2, .ok ()) => (engine2, .ok statement)

/-- The template `Database::RunAsync(sql, params)`. -/
def Database.RunAsync (svc : Services E Stmt Value) (db : Database) (engine : E)
    (sql : PlatformString) (params : ParameterContainer Value) : Outcome E Unit :=
  match db.PrepareAndBind svc engine sql params with
  | (engine1, .error e) =>
    { result := .error e
      db := { db with lastErrorMsg := svc.sqlite3_errmsg16 engine1 db.sqlite }
      engine := engine1
      effects := [] }
  | (engine1, .ok statement) =>
    let step := svc.Run statement engine1
    let (db1, effects) := db.reportChanges svc.ToPlatformString step.hooks
    match step.result with
    | .error e =>
      { result := .error e
        db := { db1 with lastErrorMsg := svc.sqlite3_errmsg16 step.engine db1.sqlite }
        engine := step.engine
        effects := effects }
    | .ok () => { result := .ok (), db := db1, engine := step.engine, effects := effects }

/-- The template `Database::OneAsync(sql, params)`. -/
def Database.OneAsync (svc : Services E Stmt Value) (db : Database) (engine : E)
    (sql : PlatformString) (params : ParameterContainer Value) :
    Outcome E PlatformString :=
  match db.PrepareAndBind svc engine sql params with
  | (engine1, .error e) =>
    { result := .error e
      db := { db with lastErrorMsg := svc.sqlite3_errmsg16 engine1 db.sqlite }
      engine := engine1
      effects := [] }
  | (engine1, .ok statement) =>
    let step := svc.One statement engine1
    let (db1, effects) := db.reportChanges svc.ToPlatformString step.hooks
    match step.result with
    | .error e =>
      { result := .error e
        db := { db1 with lastErrorMsg := svc.sqlite3_errmsg16 step.engine db1.sqlite }
        engine := step.engine
        effects := effects }
    | .ok row => { result := .ok row, db := db1, engine := step.engine, effects := effects }

/-- The template `Database::AllAsync(sql, params)`. -/
def Database.AllAsync (svc : Services E Stmt Value) (db : Database) (engine : E)
    (sql : PlatformString) (params : ParameterContainer Value) :
    Outcome E PlatformString :=
  match db.PrepareAndBind svc engine sql params with
  | (engine1, .error e) =>
    { result := .error e
      db := { db with lastErrorMsg := svc.sqlite3_errmsg16 engine1 db.sqlite }
      engine := engine1
      effects := [] }
  | (engine1, .ok statement) =>
    let step := svc.All statement engine1
    let (db1, effects) := db.reportChanges svc.ToPlatformString step.hooks
    match step.result with
    | .error e =>
      { result := .error e
        db := { db1 with lastErrorMsg := svc.sqlite3_errmsg16 step.engine db1.sqlite }
        engine := step.engine
        effects := effects }
    | .ok rows => { result := .ok rows, db := db1, engine := step.engine, effects := effects }

/-- The template `Database::EachAsync(sql, params, callback)`. -/
def Database.EachAsync (svc : Services E Stmt Value) (db : Database) (engine : E)
    (sql : PlatformString) (params : ParameterContainer Value) (callback : EachCallback) :
    Outcome E Unit :=
  match db.PrepareAndBind svc engine sql params with
  | (engine1, .error e) =>
    { result := .error e
      db := { db with lastErrorMsg := svc.sqlite3_errmsg16 engine1 db.sqlite }
      engine := engine1
      effects := [] }
  | (engine1, .ok statement) =>
    let step := svc.Each statement callback db.dispatcher engine1
    let (db1, effects) := db.reportChanges svc.ToPlatformString step.hooks
    match step.result with
    | .error e =>
      { result := .error e
        db := { db1 with lastErrorMsg := svc.sqlite3_errmsg16 step.engine db1.sqlite }
        engine := step.engine
        effects := effects }
    | .ok () => { result := .ok (), db := db1, engine := step.engine, effects := effects }

def Database.RunAsyncVector (svc : Services E Stmt Value) (db : Database) (engine : E)
    (sql : PlatformString) (params : Option (List Value)) : Outcome E Unit :=
  db.RunAsync svc engine sql (.vector params)

def Database.RunAsyncMap (svc : Services E Stmt Value) (db : Database) (engine : E)
    (sql : PlatformString) (params : Option (List (String × Value))) : Outcome E Unit :=
  db.RunAsync svc engine sql (.map params)

def Database.OneAsyncVector (svc : Services E Stmt Value) (db : Database) (engine : E)
    (sql : PlatformString) (params : Option (List Value)) : Outcome E PlatformString :=
  db.OneAsync svc engine sql (.vector params)

def Database.OneAsyncMap (svc : Services E Stmt Value) (db : Database) (engine : E)
    (sql : PlatformString) (params : Option (List (String × Value))) :
    Outcome E PlatformString :=
  db.OneAsync svc engine sql (.map params)

def Database.AllAsyncMap (svc : Services E Stmt Value) (db : Database) (engine : E)
    (sql : PlatformString) (params : Option (List (String × Value))) :
    Outcome E PlatformString :=
  db.AllAsync svc engine sql (.map params)

def Database.AllAsyncVector (svc : Services E Stmt Value) (db : Database) (engine : E)
    (sql : PlatformString) (params : Option (List Value)) : Outcome E PlatformString :=
  db.AllAsync svc engine sql (.vector params)

def Database.EachAsyncVector (svc : Services E Stmt Value) (db : Database) (engine : E)
    (sql : PlatformString) (params : Option (List Value)) (callback : EachCallback) :
    Outcome E Unit :=
  db.EachAsync svc engine sql (.vector params) callback

def Database.EachAsyncMap (svc : Services E Stmt Value) (db : Database) (engine : E)
    (sql : PlatformString) (params : Option (List (String × Value)))
    (callback : EachCallback) : Outcome E Unit :=
  db.EachAsync svc engine sql (.map params) callback

/-- The method `Database::GetLastError()`. -/
def Database.GetLastError (db : Database) : PlatformString :=
  db.lastErrorMsg

/-- The method `Database::VacuumAsync()`. When `RunAsync` throws, the exception leaves
the method at that call and the assignment after it is not reached. -/
def Database.VacuumAsync (svc : Services E Stmt Value) (db : Database) (engine : E) :
    Outcome E Unit :=
  let oldFireEvents := db.fireEvents
  let db0 := { db with fireEvents := false }
  let ran := db0.RunAsync svc engine "VACUUM" (.vector none)
  match ran.result with
  | .error e => { ran with result := .error e }
  | .ok () => { ran with result := .ok (), db := { ran.db with fireEvents := oldFireEvents } }

/-! ## Collation hook -/

def LINGUISTIC_IGNORECASE : Nat := 0x00000010
def LINGUISTIC_IGNOREDIACRITIC : Nat := 0x00000020

/-- The arguments of one call of `CompareStringEx` that vary: the locale name (`none`
stands for `LOCALE_NAME_USER_DEFAULT`), the flags, and the two strings with their
lengths in 16-bit units. The last three arguments are always `NULL, NULL, 0`. -/
structure CompareCall where
  localeName : Option PlatformString
  flags : Nat
  string1 : WChars
  count1 : Int
  string2 : WChars
  count2 : Int
  deriving DecidableEq, Repr

/-- The collation function `WinLocaleCollateUtf16(data, str1Length, str1Data, str2Length,
str2Data)`; `data` is the `Database` registered with the collation. The call made to
the primitive is returned next to the result. Division of `int` truncates. -/
def WinLocaleCollateUtf16 (CompareStringEx : CompareCall → Int) (data : Database)
    (str1Length : Int) (str1Data : WChars) (str2Length : Int) (str2Data : WChars) :
    Except Fault Int × List CompareCall :=
  let db := data
  let language := db.collationLanguage
  let call : CompareCall :=
    { localeName := language
      flags := LINGUISTIC_IGNORECASE ||| LINGUISTIC_IGNOREDIACRITIC
      string1 := str1Data
      count1 := Int.tdiv str1Length 2
      string2 := str2Data
      count2 := Int.tdiv str2Length 2 }
  let compareResult := CompareStringEx call
  if compareResult = 0 then
    (.error Fault.invalidArgument, [call])
  else
    (.ok (compareResult - 2), [call])

/-! ## Translate function hook -/

/-- An `sqlite3_value`: its datatype code and its text in UTF-16 (without terminator). -/
structure SqlValue where
  type : Int
  text16 : WChars
  deriving DecidableEq, Repr

def sqlite3_value_type (value : SqlValue) : Int :=
  value.type

/-- The engine hands out the UTF-16 text of a value as a zero-terminated buffer. -/
def sqlite3_value_text16 (value : SqlValue) : WChars :=
  value.text16 ++ [0]

/-- The constructor `Platform::String(wchar_t const*)` reads up to the first zero. -/
def PlatformString_ofBuffer (buffer : WChars) : WChars :=
  buffer.takeWhile (fun unit => unit ≠ 0)

/-- The buffer behind `string->Data()`: the characters and a terminating zero. -/
def PlatformString_Data (string : WChars) : WChars :=
  string ++ [0]

def sizeof_wchar_t : Nat := 2

/-- What `TranslateFuncUtf16` does with its context and with the resource loader. -/
inductive FuncEffect where
  | sqlite3_result_error (message : String) (length : Int)
  | GetString (key : WChars)
  | sqlite3_result_text16 (buffer : WChars) (nBytes : Nat)
  deriving DecidableEq, Repr

/-- How a call of `TranslateFuncUtf16` ends: it returns after the listed calls, or it
has read the element `argv[index]` of an array that has no such element. -/
inductive FuncOutcome where
  | returned (effects : List FuncEffect)
  | readOutsideArgv (index : Nat)
  deriving DecidableEq, Repr

/-- The text the engine takes as the result of the function from a call
`sqlite3_result_text16(context, buffer, nBytes, SQLITE_TRANSIENT)` with a non-negative
byte count: the first `nBytes` bytes of the buffer. -/
def resultText16 (buffer : WChars) (nBytes : Nat) : WChars :=
  buffer.take (nBytes / sizeof_wchar_t)

/-- The scalar function `TranslateFuncUtf16(context, argc, argv)`. `GetString` is the
lookup of the shared resource loader. The first statement reads `argv[0]`, before
`argc` is looked at. -/
def TranslateFuncUtf16 (GetString : WChars → WChars) (argc : Int) (argv : List SqlValue) :
    FuncOutcome :=
  match argv[0]? with
  | none => .readOutsideArgv 0
  | some argv0 =>
    let param0Type := sqlite3_value_type argv0
    if ¬ (argc = 1 ∧ param0Type = SQLITE_TEXT) then
      .returned [FuncEffect.sqlite3_result_error "Invalid parameters" (-1)]
    else
      let p0Text := sqlite3_value_text16 argv0
      let key := PlatformString_ofBuffer p0Text
      let translation := GetString key
      .returned
        [ FuncEffect.GetString key,
          FuncEffect.sqlite3_result_text16 (PlatformString_Data translation)
            ((translation.length + 1) * sizeof_wchar_t) ]

/-! ## Sample inputs -/

/-- A connection with events enabled, no `Insert` listener and one `Update` listener. -/
def sampleDatabase : Database :=
  { this := 1
    collationLanguage := none
    dispatcher := 7
    sqlite := 42
    fireEvents := true
    lastErrorMsg := ""
    Insert := []
    Update := [5]
    Delete := [] }

/-- The same connection with events suppressed. -/
def sampleSuppressed : Database :=
  { sampleDatabase with fireEvents := false }

/-- An engine whose open call succeeds with handle 42. -/
def openSucceeds : PlatformString → Int × Handle :=
  fun _ => (SQLITE_OK, 42)

/-- An engine whose open call reports `SQLITE_CANTOPEN` (14), leaving handle 42. -/
def openCannotOpen : PlatformString → Int × Handle :=
  fun _ => (14, 42)

/-- A statement service over an engine whose state is its current error message. Every
statement compiles and binds; running one is refused with `SQLITE_ERROR` (1), as the
engine does for a `VACUUM` issued inside a transaction, after the engine has reported
one row change. -/
def runRefused : Services PlatformString Unit Int :=
  { Prepare := fun _ _ engine => (engine, .ok ())
    Bind := fun _ _ engine => (engine, .ok ())
    Run := fun _ _ =>
      { hooks := [{ action := SQLITE_INSERT, dbName := "main", tableName := "users", rowId := 3 }]
        engine := "cannot VACUUM from within a transaction"
        result := .error (Fault.sqliteError 1) }
    One := fun _ engine => { hooks := [], engine := engine, result := .ok "" }
    All := fun _ engine => { hooks := [], engine := engine, result := .ok "" }
    Each := fun _ _ _ engine => { hooks := [], engine := engine, result := .ok () }
    sqlite3_errmsg16 := fun engine _ => engine
    ToPlatformString := id }

/-- A statement service, over the same kind of engine, that rejects every SQL text at
compilation with `SQLITE_ERROR` (1) and the message of a syntax error. -/
def prepareRejects : Services PlatformString Unit Int :=
  { runRefused with
    Prepare := fun _ _ _ => ("syntax error", .error (Fault.sqliteError 1)) }

/-- A resource loader that resolves the key "k" (code unit 107) to "Hi" (72, 105) and
every other key to the empty string. -/
def sampleLoader : WChars → WChars :=
  fun key => if key = [107] then [72, 105] else []

/-- A comparison primitive that orders by length: 1 for shorter, 2 for equal length, 3
for longer. -/
def lengthCompare : CompareCall → Int :=
  fun call => if call.count1 < call.count2 then 1 else if call.count1 = call.count2 then 2 else 3

/-- A comparison primitive that always fails. -/
def failingCompare : CompareCall → Int :=
  fun _ => 0

/-- The sample connection with the collation language set. -/
def sampleGerman : Database :=
  { sampleDatabase with collationLanguage := some "de-DE" }

/-! ## Auxiliary facts -/

theorem OnChange_keeps_object (conv : CStr → PlatformString) (db : Database) (action : Int)
    (dbName tableName : CStr) (rowId : Int) :
    (db.OnChange conv action dbName tableName rowId).1 = db := by
  unfold Database.OnChange
  by_cases hf : db.fireEvents = true
  · by_cases h1 : action = SQLITE_INSERT
    · simp [hf, h1]
    · by_cases h2 : action = SQLITE_UPDATE
      · subst h2
        simp [hf, SQLITE_UPDATE, SQLITE_INSERT]
      · by_cases h3 : action = SQLITE_DELETE
        · subst h3
          simp [hf, SQLITE_UPDATE, SQLITE_INSERT, SQLITE_DELETE]
        · simp [hf, h1, h2, h3]
  · simp [hf]

theorem OnChange_disabled (conv : CStr → PlatformString) (db : Database) (action : Int)
    (dbName tableName : CStr) (rowId : Int) (h : db.fireEvents = false) :
    db.OnChange conv action dbName tableName rowId = (db, []) := by
  simp [Database.OnChange, h]

theorem OnChange_enabled_insert (conv : CStr → PlatformString) (db : Database)
    (dbName tableName : CStr) (rowId : Int) (h : db.fireEvents = true) :
    db.OnChange conv SQLITE_INSERT dbName tableName rowId =
      (db, [Effect.dispatcherRunAsync db.dispatcher CoreDispatcherPriority.Normal
        { kind := .Insert, sender := db.this
          event := { RowId := rowId, TableName := conv tableName } }]) := by
  simp [Database.OnChange, h]

theorem OnChange_enabled_update (conv : CStr → PlatformString) (db : Database)
    (dbName tableName : CStr) (rowId : Int) (h : db.fireEvents = true) :
    db.OnChange conv SQLITE_UPDATE dbName tableName rowId =
      (db, [Effect.dispatcherRunAsync db.dispatcher CoreDispatcherPriority.Normal
        { kind := .Update, sender := db.this
          event := { RowId := rowId, TableName := conv tableName } }]) := by
  simp [Database.OnChange, h, SQLITE_UPDATE, SQLITE_INSERT]

theorem OnChange_enabled_delete (conv : CStr → PlatformString) (db : Database)
    (dbName tableName : CStr) (rowId : Int) (h : db.fireEvents = true) :
    db.OnChange conv SQLITE_DELETE dbName tableName rowId =
      (db, [Effect.dispatcherRunAsync db.dispatcher CoreDispatcherPriority.Normal
        { kind := .Delete, sender := db.this
          event := { RowId := rowId, TableName := conv tableName } }]) := by
  simp [Database.OnChange, h, SQLITE_UPDATE, SQLITE_INSERT, SQLITE_DELETE]

theorem OnChange_enabled_other (conv : CStr → PlatformString) (db : Database) (action : Int)
    (dbName tableName : CStr) (rowId : Int)
    (h1 : action ≠ SQLITE_INSERT) (h2 : action ≠ SQLITE_UPDATE)
    (h3 : action ≠ SQLITE_DELETE) :
    db.OnChange conv action dbName tableName rowId = (db, []) := by
  unfold Database.OnChange
  by_cases hf : db.fireEvents = true <;> simp [hf, h1, h2, h3]

theorem reportChanges_keeps_object (conv : CStr → PlatformString) (db : Database)
    (changes : List RowChange) : (db.reportChanges conv changes).1 = db := by
  induction changes generalizing db with
  | nil => rfl
  | cons change rest ih =>
    have h := OnChange_keeps_object conv db change.action change.dbName change.tableName
      change.rowId
    simp only [Database.reportChanges, Database.UpdateHook]
    rw [ih]
    exact h

theorem reportChanges_disabled (conv : CStr → PlatformString) (db : Database)
    (changes : List RowChange) (h : db.fireEvents = false) :
    db.reportChanges conv changes = (db, []) := by
  induction changes with
  | nil => rfl
  | cons change rest ih =>
    simp [Database.reportChanges, Database.UpdateHook, OnChange_disabled conv db _ _ _ _ h, ih]

theorem Open_success (sqlite3_open16 : PlatformString → Int × Handle)
    (dispatcher : DispatcherRef) (fresh : ObjRef) (dbPath : PlatformString)
    (h : (sqlite3_open16 dbPath).1 = SQLITE_OK) :
    Database.Open sqlite3_open16 (some dispatcher) fresh dbPath =
      (.ok (Database.construct fresh (sqlite3_open16 dbPath).2 dispatcher).1,
       [Effect.sqlite3_open16 dbPath, Effect.getForCurrentThread] ++
         (Database.construct fresh (sqlite3_open16 dbPath).2 dispatcher).2) := by
  simp [Database.Open, h]

theorem Open_failure (sqlite3_open16 : PlatformString → Int × Handle)
    (currentWindow : Option DispatcherRef) (fresh : ObjRef) (dbPath : PlatformString)
    (h : (sqlite3_open16 dbPath).1 ≠ SQLITE_OK) :
    Database.Open sqlite3_open16 currentWindow fresh dbPath =
      (.error (throwSQLiteError (sqlite3_open16 dbPath).1),
       [Effect.sqlite3_open16 dbPath, Effect.sqlite3_close (sqlite3_open16 dbPath).2]) := by
  simp [Database.Open, h]

theorem RunAsync_disabled_effects (svc : Services E Stmt Value) (db : Database) (engine : E)
    (sql : PlatformString) (params : ParameterContainer Value)
    (h : db.fireEvents = false) : (db.RunAsync svc engine sql params).effects = [] := by
  unfold Database.RunAsync
  split
  · rfl
  · simp only [reportChanges_disabled _ db _ h]
    split <;> rfl

/-! ## Change dispatch: the claims -/

/-- C3: while the fire-events flag is false, `OnChange` does nothing for any row-change
callback: it leaves the object as it was and makes no call at all, so nothing is queued
on the dispatcher and no listener is called. Consequently a `VacuumAsync`, which runs
its statement with the flag off, makes no such call whatever row changes the engine
reports during the vacuum and whether the vacuum succeeds or fails. -/
theorem OnChange_suppressed_does_nothing (conv : CStr → PlatformString) (db : Database)
    (action : Int) (dbName tableName : CStr) (rowId : Int) (h : db.fireEvents = false) :
    db.OnChange conv action dbName tableName rowId = (db, []) ∧
    (∀ changes : List RowChange, db.reportChanges conv changes = (db, [])) ∧
    (∀ (E Stmt Value : Type) (svc : Services E Stmt Value) (any : Database) (engine : E),
      (any.VacuumAsync svc engine).effects = []) := by
  refine ⟨OnChange_disabled conv db action dbName tableName rowId h,
    fun changes => reportChanges_disabled conv db changes h, ?_⟩
  intro E Stmt Value svc any engine
  have hrun := RunAsync_disabled_effects svc { any with fireEvents := false } engine
    "VACUUM" (.vector none) rfl
  unfold Database.VacuumAsync
  simp only []
  split <;> simpa using hrun

/-- C4: with the fire-events flag true and an action code that is one of
`SQLITE_INSERT`, `SQLITE_UPDATE`, `SQLITE_DELETE`, `OnChange` makes exactly one call:
it posts one handler to the dispatcher stored in the object. The handler is of the
event matching the action code and, when run, calls every listener of that event with
this object and the event made of the row id and of the table name (as converted by
`ToPlatformString`). `OnChange` itself calls no listener. The stored dispatcher is the
one captured by `Open`. -/
theorem OnChange_enabled_posts_one_handler (conv : CStr → PlatformString) (db : Database)
    (action : Int) (dbName tableName : CStr) (rowId : Int) (hEnabled : db.fireEvents = true)
    (hAction : action = SQLITE_INSERT ∨ action = SQLITE_UPDATE ∨ action = SQLITE_DELETE) :
    (∃ handler : DispatchedHandler,
      db.OnChange conv action dbName tableName rowId =
        (db, [Effect.dispatcherRunAsync db.dispatcher CoreDispatcherPriority.Normal handler]) ∧
      (action = SQLITE_INSERT → handler.kind = ChangeKind.Insert) ∧
      (action = SQLITE_UPDATE → handler.kind = ChangeKind.Update) ∧
      (action = SQLITE_DELETE → handler.kind = ChangeKind.Delete) ∧
      handler.sender = db.this ∧
      handler.event = { RowId := rowId, TableName := conv tableName } ∧
      (∀ later : Database, handler.invoke later =
        (later.listeners handler.kind).map (fun listener =>
          Effect.listenerCall listener db.this
            { RowId := rowId, TableName := conv tableName }))) ∧
    (∀ listener sender event,
      Effect.listenerCall listener sender event ∉
        (db.OnChange conv action dbName tableName rowId).2) ∧
    (∀ (sqlite3_open16 : PlatformString → Int × Handle) (current : DispatcherRef)
       (fresh : ObjRef) (dbPath : PlatformString) (opened : Database) (calls : List Effect),
      Database.Open sqlite3_open16 (some current) fresh dbPath = (.ok opened, calls) →
        opened.dispatcher = current) := by
  refine ⟨?_, ?_, ?_⟩
  · rcases hAction with h | h | h
    · subst h
      exact ⟨_, OnChange_enabled_insert conv db dbName tableName rowId hEnabled,
        fun _ => rfl, fun h => absurd h (by decide), fun h => absurd h (by decide), rfl, rfl,
        fun _ => rfl⟩
    · subst h
      exact ⟨_, OnChange_enabled_update conv db dbName tableName rowId hEnabled,
        fun h => absurd h (by decide), fun _ => rfl, fun h => absurd h (by decide), rfl, rfl,
        fun _ => rfl⟩
    · subst h
      exact ⟨_, OnChange_enabled_delete conv db dbName tableName rowId hEnabled,
        fun h => absurd h (by decide), fun h => absurd h (by decide), fun _ => rfl, rfl, rfl,
        fun _ => rfl⟩
  · intro listener sender event
    rcases hAction with h | h | h
    · subst h
      simp [OnChange_enabled_insert conv db dbName tableName rowId hEnabled]
    · subst h
      simp [OnChange_enabled_update conv db dbName tableName rowId hEnabled]
    · subst h
      simp [OnChange_enabled_delete conv db dbName tableName rowId hEnabled]
  · intro sqlite3_open16 current fresh dbPath opened calls hOpen
    by_cases hret : (sqlite3_open16 dbPath).1 = SQLITE_OK
    · rw [Open_success sqlite3_open16 current fresh dbPath hret] at hOpen
      simp only [Prod.mk.injEq, Except.ok.injEq] at hOpen
      rw [← hOpen.1]
      rfl
    · rw [Open_failure sqlite3_open16 (some current) fresh dbPath hret] at hOpen
      simp at hOpen

theorem OnChange_suppressed_does_nothing_witness :
    sampleSuppressed.OnChange id SQLITE_INSERT "main" "users" 3 = (sampleSuppressed, []) :=
  (OnChange_suppressed_does_nothing id sampleSuppressed SQLITE_INSERT "main" "users" 3 rfl).1

theorem OnChange_enabled_posts_one_handler_witness :
    ∃ handler : DispatchedHandler,
      sampleDatabase.OnChange id SQLITE_UPDATE "main" "users" 3 =
        (sampleDatabase, [Effect.dispatcherRunAsync 7 CoreDispatcherPriority.Normal handler]) ∧
      handler.invoke sampleDatabase =
        [Effect.listenerCall 5 1 { RowId := 3, TableName := "users" }] := by
  obtain ⟨handler, hcall, _, hkind, _, _, _, hrun⟩ :=
    (OnChange_enabled_posts_one_handler id sampleDatabase SQLITE_UPDATE "main" "users" 3 rfl
      (Or.inr (Or.inl rfl))).1
  refine ⟨handler, hcall, ?_⟩
  rw [hrun sampleDatabase, hkind rfl]
  rfl

/-- C5 as stated fails: with events enabled and no listener subscribed to `Insert`, an
`SQLITE_INSERT` callback still posts one handler to the dispatcher. -/
theorem OnChange_posts_without_listener :
    sampleDatabase.fireEvents = true ∧
    sampleDatabase.listeners ChangeKind.Insert = [] ∧
    (sampleDatabase.OnChange id SQLITE_INSERT "main" "users" 3).2 =
      [Effect.dispatcherRunAsync 7 CoreDispatcherPriority.Normal
        { kind := .Insert, sender := 1, event := { RowId := 3, TableName := "users" } }] ∧
    (sampleDatabase.OnChange id SQLITE_INSERT "main" "users" 3).2 ≠ [] := by
  refine ⟨rfl, rfl, ?_, ?_⟩
  · rw [OnChange_enabled_insert id sampleDatabase "main" "users" 3 rfl]
    rfl
  · rw [OnChange_enabled_insert id sampleDatabase "main" "users" 3 rfl]
    simp

/-- C5 (amended): with events enabled, `OnChange` posts nothing exactly when no handler
was built, that is when the action code is none of `SQLITE_INSERT`, `SQLITE_UPDATE`,
`SQLITE_DELETE`; the listeners subscribed to the events are not looked at: for each of
the three codes one handler is posted, whatever the listener sets hold. -/
theorem OnChange_posts_nothing_for_other_actions (conv : CStr → PlatformString)
    (db : Database) (action : Int) (dbName tableName : CStr) (rowId : Int)
    (hEnabled : db.fireEvents = true)
    (hAction : action ≠ SQLITE_INSERT ∧ action ≠ SQLITE_UPDATE ∧ action ≠ SQLITE_DELETE) :
    db.OnChange conv action dbName tableName rowId = (db, []) ∧
    (∀ known : Int,
      known = SQLITE_INSERT ∨ known = SQLITE_UPDATE ∨ known = SQLITE_DELETE →
        ∃ handler, (db.OnChange conv known dbName tableName rowId).2 =
          [Effect.dispatcherRunAsync db.dispatcher CoreDispatcherPriority.Normal handler]) := by
  refine ⟨OnChange_enabled_other conv db action dbName tableName rowId hAction.1 hAction.2.1
    hAction.2.2, ?_⟩
  intro known hknown
  rcases hknown with h | h | h
  · subst h
    exact ⟨_, by rw [OnChange_enabled_insert conv db dbName tableName rowId hEnabled]⟩
  · subst h
    exact ⟨_, by rw [OnChange_enabled_update conv db dbName tableName rowId hEnabled]⟩
  · subst h
    exact ⟨_, by rw [OnChange_enabled_delete conv db dbName tableName rowId hEnabled]⟩

theorem OnChange_posts_nothing_for_other_actions_witness :
    sampleDatabase.OnChange id 0 "main" "users" 3 = (sampleDatabase, []) :=
  (OnChange_posts_nothing_for_other_actions id sampleDatabase 0 "main" "users" 3 rfl
    ⟨by decide, by decide, by decide⟩).1

/-! ## Construction: the claims -/

/-- C6: a freshly constructed connection has the fire-events flag true, and so has every
connection returned by `Open`; on such a connection a first row-change callback of
kind insert, update or delete posts a handler to the dispatcher. (The constructor in
`Database.cpp` does not assign the flag; its start value is `fireEventsDeclared`.) -/
theorem constructed_connection_fires_events (this : ObjRef) (sqlite : Handle)
    (dispatcher : DispatcherRef) (conv : CStr → PlatformString) (dbName tableName : CStr)
    (rowId : Int) :
    (Database.construct this sqlite dispatcher).1.fireEvents = true ∧
    (∀ (sqlite3_open16 : PlatformString → Int × Handle) (currentWindow : Option DispatcherRef)
       (fresh : ObjRef) (dbPath : PlatformString) (opened : Database) (calls : List Effect),
      Database.Open sqlite3_open16 currentWindow fresh dbPath = (.ok opened, calls) →
        opened.fireEvents = true) ∧
    (∀ action : Int,
      action = SQLITE_INSERT ∨ action = SQLITE_UPDATE ∨ action = SQLITE_DELETE →
        ∃ handler,
          ((Database.construct this sqlite dispatcher).1.OnChange conv action dbName tableName
            rowId).2 =
            [Effect.dispatcherRunAsync dispatcher CoreDispatcherPriority.Normal handler]) := by
  refine ⟨rfl, ?_, ?_⟩
  · intro sqlite3_open16 currentWindow fresh dbPath opened calls hOpen
    by_cases hret : (sqlite3_open16 dbPath).1 = SQLITE_OK
    · cases currentWindow with
      | none => simp [Database.Open, hret] at hOpen
      | some current =>
        rw [Open_success sqlite3_open16 current fresh dbPath hret] at hOpen
        simp only [Prod.mk.injEq, Except.ok.injEq] at hOpen
        rw [← hOpen.1]
        rfl
    · rw [Open_failure sqlite3_open16 currentWindow fresh dbPath hret] at hOpen
      simp at hOpen
  · intro action hAction
    rcases hAction with h | h | h
    · subst h
      exact ⟨_, by rw [OnChange_enabled_insert conv _ dbName tableName rowId rfl]; rfl⟩
    · subst h
      exact ⟨_, by rw [OnChange_enabled_update conv _ dbName tableName rowId rfl]; rfl⟩
    · subst h
      exact ⟨_, by rw [OnChange_enabled_delete conv _ dbName tableName rowId rfl]; rfl⟩

theorem constructed_connection_fires_events_witness :
    ∃ handler,
      ((Database.construct 1 42 7).1.OnChange id SQLITE_DELETE "main" "users" 3).2 =
        [Effect.dispatcherRunAsync 7 CoreDispatcherPriority.Normal handler] :=
  (constructed_connection_fires_events 1 42 7 id "main" "users" 3).2.2 SQLITE_DELETE
    (Or.inr (Or.inr rfl))

/-- C7: whatever status the engine returns from its open call: when the status is not
`SQLITE_OK`, `Open` closes the handle the engine handed back and fails with the error
that carries this status, having made no other call (no dispatcher looked up, nothing
registered, no object built); when the status is `SQLITE_OK`, `Open` returns a
connection that owns this handle and holds the dispatcher of the calling thread, with
the update hook, both collations and the function registered on the handle. -/
theorem Open_by_status (sqlite3_open16 : PlatformString → Int × Handle)
    (currentWindow : Option DispatcherRef) (fresh : ObjRef) (dbPath : PlatformString) :
    ((sqlite3_open16 dbPath).1 ≠ SQLITE_OK →
      Database.Open sqlite3_open16 currentWindow fresh dbPath =
        (.error (Fault.sqliteError (sqlite3_open16 dbPath).1),
         [Effect.sqlite3_open16 dbPath, Effect.sqlite3_close (sqlite3_open16 dbPath).2])) ∧
    ((sqlite3_open16 dbPath).1 = SQLITE_OK →
      ∀ current : DispatcherRef, currentWindow = some current →
        ∃ db : Database,
          Database.Open sqlite3_open16 currentWindow fresh dbPath =
            (.ok db,
             [ Effect.sqlite3_open16 dbPath,
               Effect.getForCurrentThread,
               Effect.sqlite3_update_hook (sqlite3_open16 dbPath).2 .UpdateHook fresh,
               Effect.sqlite3_create_collation_v2 (sqlite3_open16 dbPath).2 "WINLOCALE"
                 .SQLITE_UTF16 fresh .WinLocaleCollateUtf16,
               Effect.sqlite3_create_collation_v2 (sqlite3_open16 dbPath).2 "WINLOCALE"
                 .SQLITE_UTF8 fresh .WinLocaleCollateUtf8,
               Effect.sqlite3_create_function_v2 (sqlite3_open16 dbPath).2 "APPTRANSLATE" 1
                 .SQLITE_UTF16 .TranslateFuncUtf16 ]) ∧
          db.this = fresh ∧
          db.sqlite = (sqlite3_open16 dbPath).2 ∧
          db.dispatcher = current) := by
  refine ⟨fun h => Open_failure sqlite3_open16 currentWindow fresh dbPath h, ?_⟩
  intro h current hwin
  subst hwin
  exact ⟨_, Open_success sqlite3_open16 current fresh dbPath h, rfl, rfl, rfl⟩

theorem Open_by_status_witness :
    Database.Open openCannotOpen (some 7) 1 "missing.db" =
        (.error (Fault.sqliteError 14),
         [Effect.sqlite3_open16 "missing.db", Effect.sqlite3_close 42]) ∧
    ∃ db : Database,
      (Database.Open openSucceeds (some 7) 1 "app.db").1 = .ok db ∧
      db.sqlite = 42 ∧ db.dispatcher = 7 := by
  refine ⟨(Open_by_status openCannotOpen (some 7) 1 "missing.db").1 (by decide), ?_⟩
  obtain ⟨db, hOpen, _, hsqlite, hdisp⟩ :=
    (Open_by_status openSucceeds (some 7) 1 "app.db").2 rfl 7 rfl
  exact ⟨db, by rw [hOpen], hsqlite, hdisp⟩

/-! ## Execution pipeline: auxiliary facts -/

theorem RunAsync_prepare_fails (svc : Services E Stmt Value) (db : Database) (engine : E)
    (sql : PlatformString) (params : ParameterContainer Value) (e : Fault)
    (engine1 : E) (hP : svc.Prepare db.sqlite sql engine = (engine1, .error e)) :
    (db.RunAsync svc engine sql params).result = .error e ∧
    (db.RunAsync svc engine sql params).db.GetLastError =
      svc.sqlite3_errmsg16 engine1 db.sqlite := by
  simp [Database.RunAsync, Database.PrepareAndBind, hP, Database.GetLastError]

theorem RunAsync_bind_fails (svc : Services E Stmt Value) (db : Database) (engine : E)
    (sql : PlatformString) (params : ParameterContainer Value) (e : Fault)
    (engine1 engine2 : E) (statement : Stmt)
    (hP : svc.Prepare db.sqlite sql engine = (engine1, .ok statement))
    (hB : svc.Bind statement params engine1 = (engine2, .error e)) :
    (db.RunAsync svc engine sql params).result = .error e ∧
    (db.RunAsync svc engine sql params).db.GetLastError =
      svc.sqlite3_errmsg16 engine2 db.sqlite := by
  simp [Database.RunAsync, Database.PrepareAndBind, hP, hB, Database.GetLastError]

theorem RunAsync_execute_fails (svc : Services E Stmt Value) (db : Database) (engine : E)
    (sql : PlatformString) (params : ParameterContainer Value) (e : Fault)
    (engine1 engine2 : E) (statement : Stmt)
    (hP : svc.Prepare db.sqlite sql engine = (engine1, .ok statement))
    (hB : svc.Bind statement params engine1 = (engine2, .ok ()))
    (hX : (svc.Run statement engine2).result = .error e) :
    (db.RunAsync svc engine sql params).result = .error e ∧
    (db.RunAsync svc engine sql params).db.GetLastError =
      svc.sqlite3_errmsg16 (svc.Run statement engine2).engine db.sqlite := by
  have hk := reportChanges_keeps_object svc.ToPlatformString db (svc.Run statement engine2).hooks
  unfold Database.RunAsync Database.PrepareAndBind
  simp only [hP, hB]
  generalize db.reportChanges svc.ToPlatformString (svc.Run statement engine2).hooks = r at hk ⊢
  obtain ⟨db1, effs⟩ := r
  simp only at hk
  subst hk
  simp [hX, Database.GetLastError]

theorem OneAsync_prepare_fails (svc : Services E Stmt Value) (db : Database) (engine : E)
    (sql : PlatformString) (params : ParameterContainer Value) (e : Fault)
    (engine1 : E) (hP : svc.Prepare db.sqlite sql engine = (engine1, .error e)) :
    (db.OneAsync svc engine sql params).result = .error e ∧
    (db.OneAsync svc engine sql params).db.GetLastError =
      svc.sqlite3_errmsg16 engine1 db.sqlite := by
  simp [Database.OneAsync, Database.PrepareAndBind, hP, Database.GetLastError]

theorem OneAsync_bind_fails (svc : Services E Stmt Value) (db : Database) (engine : E)
    (sql : PlatformString) (params : ParameterContainer Value) (e : Fault)
    (engine1 engine2 : E) (statement : Stmt)
    (hP : svc.Prepare db.sqlite sql engine = (engine1, .ok statement))
    (hB : svc.Bind statement params engine1 = (engine2, .error e)) :
    (db.OneAsync svc engine sql params).result = .error e ∧
    (db.OneAsync svc engine sql params).db.GetLastError =
      svc.sqlite3_errmsg16 engine2 db.sqlite := by
  simp [Database.OneAsync, Database.PrepareAndBind, hP, hB, Database.GetLastError]

theorem OneAsync_execute_fails (svc : Services E Stmt Value) (db : Database) (engine : E)
    (sql : PlatformString) (params : ParameterContainer Value) (e : Fault)
    (engine1 engine2 : E) (statement : Stmt)
    (hP : svc.Prepare db.sqlite sql engine = (engine1, .ok statement))
    (hB : svc.Bind statement params engine1 = (engine2, .ok ()))
    (hX : (svc.One statement engine2).result = .error e) :
    (db.OneAsync svc engine sql params).result = .error e ∧
    (db.OneAsync svc engine sql params).db.GetLastError =
      svc.sqlite3_errmsg16 (svc.One statement engine2).engine db.sqlite := by
  have hk := reportChanges_keeps_object svc.ToPlatformString db (svc.One statement engine2).hooks
  unfold Database.OneAsync Database.PrepareAndBind
  simp only [hP, hB]
  generalize db.reportChanges svc.ToPlatformString (svc.One statement engine2).hooks = r at hk ⊢
  obtain ⟨db1, effs⟩ := r
  simp only at hk
  subst hk
  simp [hX, Database.GetLastError]

theorem AllAsync_prepare_fails (svc : Services E Stmt Value) (db : Database) (engine : E)
    (sql : PlatformString) (params : ParameterContainer Value) (e : Fault)
    (engine1 : E) (hP : svc.Prepare db.sqlite sql engine = (engine1, .error e)) :
    (db.AllAsync svc engine sql params).result = .error e ∧
    (db.AllAsync svc engine sql params).db.GetLastError =
      svc.sqlite3_errmsg16 engine1 db.sqlite := by
  simp [Database.AllAsync, Database.PrepareAndBind, hP, Database.GetLastError]

theorem AllAsync_bind_fails (svc : Services E Stmt Value) (db : Database) (engine : E)
    (sql : PlatformString) (params : ParameterContainer Value) (e : Fault)
    (engine1 engine2 : E) (statement : Stmt)
    (hP : svc.Prepare db.sqlite sql engine = (engine1, .ok statement))
    (hB : svc.Bind statement params engine1 = (engine2, .error e)) :
    (db.AllAsync svc engine sql params).result = .error e ∧
    (db.AllAsync svc engine sql params).db.GetLastError =
      svc.sqlite3_errmsg16 engine2 db.sqlite := by
  simp [Database.AllAsync, Database.PrepareAndBind, hP, hB, Database.GetLastError]

theorem AllAsync_execute_fails (svc : Services E Stmt Value) (db : Database) (engine : E)
    (sql : PlatformString) (params : ParameterContainer Value) (e : Fault)
    (engine1 engine2 : E) (statement : Stmt)
    (hP : svc.Prepare db.sqlite sql engine = (engine1, .ok statement))
    (hB : svc.Bind statement params engine1 = (engine2, .ok ()))
    (hX : (svc.All statement engine2).result = .error e) :
    (db.AllAsync svc engine sql params).result = .error e ∧
    (db.AllAsync svc engine sql params).db.GetLastError =
      svc.sqlite3_errmsg16 (svc.All statement engine2).engine db.sqlite := by
  have hk := reportChanges_keeps_object svc.ToPlatformString db (svc.All statement engine2).hooks
  unfold Database.AllAsync Database.PrepareAndBind
  simp only [hP, hB]
  generalize db.reportChanges svc.ToPlatformString (svc.All statement engine2).hooks = r at hk ⊢
  obtain ⟨db1, effs⟩ := r
  simp only at hk
  subst hk
  simp [hX, Database.GetLastError]

theorem EachAsync_prepare_fails (svc : Services E Stmt Value) (db : Database) (engine : E)
    (sql : PlatformString) (params : ParameterContainer Value) (callback : EachCallback) (e : Fault)
    (engine1 : E) (hP : svc.Prepare db.sqlite sql engine = (engine1, .error e)) :
    (db.EachAsync svc engine sql params callback).result = .error e ∧
    (db.EachAsync svc engine sql params callback).db.GetLastError =
      svc.sqlite3_errmsg16 engine1 db.sqlite := by
  simp [Database.EachAsync, Database.PrepareAndBind, hP, Database.GetLastError]

theorem EachAsync_bind_fails (svc : Services E Stmt Value) (db : Database) (engine : E)
    (sql : PlatformString) (params : ParameterContainer Value) (callback : EachCallback) (e : Fault)
    (engine1 engine2 : E) (statement : Stmt)
    (hP : svc.Prepare db.sqlite sql engine = (engine1, .ok statement))
    (hB : svc.Bind statement params engine1 = (engine2, .error e)) :
    (db.EachAsync svc engine sql params callback).result = .error e ∧
    (db.EachAsync svc engine sql params callback).db.GetLastError =
      svc.sqlite3_errmsg16 engine2 db.sqlite := by
  simp [Database.EachAsync, Database.PrepareAndBind, hP, hB, Database.GetLastError]

theorem EachAsync_execute_fails (svc : Services E Stmt Value) (db : Database) (engine : E)
    (sql : PlatformString) (params : ParameterContainer Value) (callback : EachCallback) (e : Fault)
    (engine1 engine2 : E) (statement : Stmt)
    (hP : svc.Prepare db.sqlite sql engine = (engine1, .ok statement))
    (hB : svc.Bind statement params engine1 = (engine2, .ok ()))
    (hX : (svc.Each statement callback db.dispatcher engine2).result = .error e) :
    (db.EachAsync svc engine sql params callback).result = .error e ∧
    (db.EachAsync svc engine sql params callback).db.GetLastError =
      svc.sqlite3_errmsg16 (svc.Each statement callback db.dispatcher engine2).engine
        db.sqlite := by
  have hk := reportChanges_keeps_object svc.ToPlatformString db
    (svc.Each statement callback db.dispatcher engine2).hooks
  unfold Database.EachAsync Database.PrepareAndBind
  simp only [hP, hB]
  generalize db.reportChanges svc.ToPlatformString
    (svc.Each statement callback db.dispatcher engine2).hooks = r at hk ⊢
  obtain ⟨db1, effs⟩ := r
  simp only at hk
  subst hk
  simp [hX, Database.GetLastError]

/-- The flag after `VacuumAsync`: restored when the statement ran, false when it threw. -/
theorem VacuumAsync_flag (svc : Services E Stmt Value) (db : Database) (engine : E) :
    ((db.VacuumAsync svc engine).result = .ok () →
      (db.VacuumAsync svc engine).db.fireEvents = db.fireEvents) ∧
    (∀ e, (db.VacuumAsync svc engine).result = .error e →
      (db.VacuumAsync svc engine).db.fireEvents = false) := by
  have hflag : ∀ (d : Database) (sql : PlatformString) (params : ParameterContainer Value),
      (d.RunAsync svc engine sql params).db.fireEvents = d.fireEvents := by
    intro d sql params
    unfold Database.RunAsync
    split
    · rfl
    · rename_i engine1 statement _
      have hk := reportChanges_keeps_object svc.ToPlatformString d
        (svc.Run statement engine1).hooks
      simp only []
      generalize d.reportChanges svc.ToPlatformString (svc.Run statement engine1).hooks = r
        at hk ⊢
      obtain ⟨db1, effs⟩ := r
      simp only at hk
      subst hk
      simp only []
      split <;> rfl
  have h0 := hflag { db with fireEvents := false } "VACUUM" (.vector none)
  unfold Database.VacuumAsync
  simp only []
  constructor
  · intro hok
    split at hok
    · simp at hok
    · rename_i heq
      simp [heq]
  · intro e herr
    split at herr
    · rename_i heq
      simp [heq, h0]
    · simp at herr

/-! ## Execution pipeline: the claims -/

/-- C1 fails on the code: on a connection with events enabled, a `VacuumAsync` whose
statement is refused by the engine propagates the error and leaves the fire-events
flag false, not at its value before the call; the row change reported during the
failed vacuum was dropped, and so will later ones be. -/
theorem VacuumAsync_failure_leaves_events_off :
    sampleDatabase.fireEvents = true ∧
    (sampleDatabase.VacuumAsync runRefused "not an error").result =
      .error (Fault.sqliteError 1) ∧
    (sampleDatabase.VacuumAsync runRefused "not an error").db.fireEvents = false ∧
    (sampleDatabase.VacuumAsync runRefused "not an error").db.GetLastError =
      "cannot VACUUM from within a transaction" ∧
    ((sampleDatabase.VacuumAsync runRefused "not an error").db.OnChange id SQLITE_INSERT
      "main" "users" 4).2 = [] :=
  ⟨rfl, rfl, rfl, rfl, rfl⟩

/-- C2: for `RunAsync`, `OneAsync`, `AllAsync` and `EachAsync`, for either kind of
parameter container and any SQL text and any state of the connection: when the
statement service throws `e` while compiling, while binding or while executing, the
call throws the same `e`, and `GetLastError` afterwards returns the engine's error
message as it stands when the exception reaches the wrapper. The eight public
overloads are the four templates at one container kind each. -/
theorem execution_failure_captures_message (svc : Services E Stmt Value) (db : Database)
    (engine : E) (sql : PlatformString) (params : ParameterContainer Value)
    (callback : EachCallback) (e : Fault) :
    (∀ engine1 : E, svc.Prepare db.sqlite sql engine = (engine1, .error e) →
      ((db.RunAsync svc engine sql params).result = .error e ∧
        (db.RunAsync svc engine sql params).db.GetLastError =
          svc.sqlite3_errmsg16 engine1 db.sqlite) ∧
      ((db.OneAsync svc engine sql params).result = .error e ∧
        (db.OneAsync svc engine sql params).db.GetLastError =
          svc.sqlite3_errmsg16 engine1 db.sqlite) ∧
      ((db.AllAsync svc engine sql params).result = .error e ∧
        (db.AllAsync svc engine sql params).db.GetLastError =
          svc.sqlite3_errmsg16 engine1 db.sqlite) ∧
      ((db.EachAsync svc engine sql params callback).result = .error e ∧
        (db.EachAsync svc engine sql params callback).db.GetLastError =
          svc.sqlite3_errmsg16 engine1 db.sqlite)) ∧
    (∀ (engine1 engine2 : E) (statement : Stmt),
      svc.Prepare db.sqlite sql engine = (engine1, .ok statement) →
      svc.Bind statement params engine1 = (engine2, .error e) →
      ((db.RunAsync svc engine sql params).result = .error e ∧
        (db.RunAsync svc engine sql params).db.GetLastError =
          svc.sqlite3_errmsg16 engine2 db.sqlite) ∧
      ((db.OneAsync svc engine sql params).result = .error e ∧
        (db.OneAsync svc engine sql params).db.GetLastError =
          svc.sqlite3_errmsg16 engine2 db.sqlite) ∧
      ((db.AllAsync svc engine sql params).result = .error e ∧
        (db.AllAsync svc engine sql params).db.GetLastError =
          svc.sqlite3_errmsg16 engine2 db.sqlite) ∧
      ((db.EachAsync svc engine sql params callback).result = .error e ∧
        (db.EachAsync svc engine sql params callback).db.GetLastError =
          svc.sqlite3_errmsg16 engine2 db.sqlite)) ∧
    (∀ (engine1 engine2 : E) (statement : Stmt),
      svc.Prepare db.sqlite sql engine = (engine1, .ok statement) →
      svc.Bind statement params engine1 = (engine2, .ok ()) →
      ((svc.Run statement engine2).result = .error e →
        (db.RunAsync svc engine sql params).result = .error e ∧
        (db.RunAsync svc engine sql params).db.GetLastError =
          svc.sqlite3_errmsg16 (svc.Run statement engine2).engine db.sqlite) ∧
      ((svc.One statement engine2).result = .error e →
        (db.OneAsync svc engine sql params).result = .error e ∧
        (db.OneAsync svc engine sql params).db.GetLastError =
          svc.sqlite3_errmsg16 (svc.One statement engine2).engine db.sqlite) ∧
      ((svc.All statement engine2).result = .error e →
        (db.AllAsync svc engine sql params).result = .error e ∧
        (db.AllAsync svc engine sql params).db.GetLastError =
          svc.sqlite3_errmsg16 (svc.All statement engine2).engine db.sqlite) ∧
      ((svc.Each statement callback db.dispatcher engine2).result = .error e →
        (db.EachAsync svc engine sql params callback).result = .error e ∧
        (db.EachAsync svc engine sql params callback).db.GetLastError =
          svc.sqlite3_errmsg16 (svc.Each statement callback db.dispatcher engine2).engine
            db.sqlite)) ∧
    (∀ (positional : Option (List Value)) (named : Option (List (String × Value))),
      db.RunAsyncVector svc engine sql positional =
        db.RunAsync svc engine sql (.vector positional) ∧
      db.RunAsyncMap svc engine sql named = db.RunAsync svc engine sql (.map named) ∧
      db.OneAsyncVector svc engine sql positional =
        db.OneAsync svc engine sql (.vector positional) ∧
      db.OneAsyncMap svc engine sql named = db.OneAsync svc engine sql (.map named) ∧
      db.AllAsyncVector svc engine sql positional =
        db.AllAsync svc engine sql (.vector positional) ∧
      db.AllAsyncMap svc engine sql named = db.AllAsync svc engine sql (.map named) ∧
      db.EachAsyncVector svc engine sql positional callback =
        db.EachAsync svc engine sql (.vector positional) callback ∧
      db.EachAsyncMap svc engine sql named callback =
        db.EachAsync svc engine sql (.map named) callback) := by
  refine ⟨?_, ?_, ?_, ?_⟩
  · intro engine1 hP
    exact ⟨RunAsync_prepare_fails svc db engine sql params e engine1 hP,
      OneAsync_prepare_fails svc db engine sql params e engine1 hP,
      AllAsync_prepare_fails svc db engine sql params e engine1 hP,
      EachAsync_prepare_fails svc db engine sql params callback e engine1 hP⟩
  · intro engine1 engine2 statement hP hB
    exact ⟨RunAsync_bind_fails svc db engine sql params e engine1 engine2 statement hP hB,
      OneAsync_bind_fails svc db engine sql params e engine1 engine2 statement hP hB,
      AllAsync_bind_fails svc db engine sql params e engine1 engine2 statement hP hB,
      EachAsync_bind_fails svc db engine sql params callback e engine1 engine2 statement hP hB⟩
  · intro engine1 engine2 statement hP hB
    exact ⟨RunAsync_execute_fails svc db engine sql params e engine1 engine2 statement hP hB,
      OneAsync_execute_fails svc db engine sql params e engine1 engine2 statement hP hB,
      AllAsync_execute_fails svc db engine sql params e engine1 engine2 statement hP hB,
      EachAsync_execute_fails svc db engine sql params callback e engine1 engine2 statement hP
        hB⟩
  · intro positional named
    exact ⟨rfl, rfl, rfl, rfl, rfl, rfl, rfl, rfl⟩

theorem execution_failure_captures_message_witness :
    ((sampleDatabase.OneAsyncMap prepareRejects "not an error" "SELEC 1" none).result =
        .error (Fault.sqliteError 1) ∧
      (sampleDatabase.OneAsyncMap prepareRejects "not an error" "SELEC 1" none).db.GetLastError =
        "syntax error") ∧
    ((sampleDatabase.RunAsyncVector runRefused "not an error" "VACUUM" none).result =
        .error (Fault.sqliteError 1) ∧
      (sampleDatabase.RunAsyncVector runRefused "not an error" "VACUUM" none).db.GetLastError =
        "cannot VACUUM from within a transaction") :=
  ⟨((execution_failure_captures_message prepareRejects sampleDatabase "not an error" "SELEC 1"
      (.map none) 0 (Fault.sqliteError 1)).1 "syntax error" rfl).2.1,
   ((execution_failure_captures_message runRefused sampleDatabase "not an error" "VACUUM"
      (.vector none) 0 (Fault.sqliteError 1)).2.2.1 "not an error" "not an error" () rfl
      rfl).1 rfl⟩

/-! ## Hook functions: the claims -/

/-- A call with one text argument: the key is looked up, and the byte count given to the
engine is that of the resolved text and of its terminator, so that the text the engine
takes is the resolved text followed by a zero. -/
theorem TranslateFuncUtf16_valid (GetString : WChars → WChars) (value : SqlValue)
    (h : value.type = SQLITE_TEXT) :
    TranslateFuncUtf16 GetString 1 [value] =
      .returned
        [ FuncEffect.GetString (PlatformString_ofBuffer (value.text16 ++ [0])),
          FuncEffect.sqlite3_result_text16
            (GetString (PlatformString_ofBuffer (value.text16 ++ [0])) ++ [0])
            (2 * (GetString (PlatformString_ofBuffer (value.text16 ++ [0]))).length + 2) ] ∧
    resultText16 (GetString (PlatformString_ofBuffer (value.text16 ++ [0])) ++ [0])
        (2 * (GetString (PlatformString_ofBuffer (value.text16 ++ [0]))).length + 2) =
      GetString (PlatformString_ofBuffer (value.text16 ++ [0])) ++ [0] := by
  constructor
  · simp [TranslateFuncUtf16, sqlite3_value_type, h, sqlite3_value_text16, PlatformString_Data,
      sizeof_wchar_t]
    omega
  · have hlen : (2 * (GetString (PlatformString_ofBuffer (value.text16 ++ [0]))).length + 2) / 2 =
        (GetString (PlatformString_ofBuffer (value.text16 ++ [0])) ++ [0]).length := by
      rw [List.length_append, List.length_singleton]
      omega
    unfold resultText16 sizeof_wchar_t
    rw [hlen]
    exact List.take_length _

/-- C8 as stated fails at argument count 0: the function reads `argv[0]`, which does not
exist, before it looks at `argc`, and no error result is set. -/
theorem TranslateFuncUtf16_reads_missing_argument :
    TranslateFuncUtf16 sampleLoader 0 [] = FuncOutcome.readOutsideArgv 0 ∧
    TranslateFuncUtf16 sampleLoader 0 [] ≠
      FuncOutcome.returned [FuncEffect.sqlite3_result_error "Invalid parameters" (-1)] := by
  constructor
  · rfl
  · intro h
    cases h

/-- C8 (amended): for every argument count of at least one and every list of that many
arguments, unless the count is one and the argument has text type, the function sets
the error result with the message "Invalid parameters" and does nothing else: no
resource lookup, no text result, no exception, and no read outside the arguments. -/
theorem TranslateFuncUtf16_invalid_parameters (GetString : WChars → WChars) (argc : Int)
    (argv : List SqlValue) (hlen : (argv.length : Int) = argc) (hpos : 1 ≤ argc)
    (hbad : ¬ (argc = 1 ∧ (argv[0]?).map sqlite3_value_type = some SQLITE_TEXT)) :
    TranslateFuncUtf16 GetString argc argv =
      FuncOutcome.returned [FuncEffect.sqlite3_result_error "Invalid parameters" (-1)] := by
  cases argv with
  | nil =>
    simp at hlen
    omega
  | cons argv0 rest =>
    have hbad0 : ¬ (argc = 1 ∧ sqlite3_value_type argv0 = SQLITE_TEXT) := by
      simpa using hbad
    simp [TranslateFuncUtf16, hbad0]

theorem TranslateFuncUtf16_invalid_parameters_witness :
    TranslateFuncUtf16 sampleLoader 2
        [{ type := SQLITE_TEXT, text16 := [107] }, { type := SQLITE_TEXT, text16 := [107] }] =
      FuncOutcome.returned [FuncEffect.sqlite3_result_error "Invalid parameters" (-1)] ∧
    TranslateFuncUtf16 sampleLoader 1 [{ type := 1, text16 := [55] }] =
      FuncOutcome.returned [FuncEffect.sqlite3_result_error "Invalid parameters" (-1)] :=
  ⟨TranslateFuncUtf16_invalid_parameters sampleLoader 2
      [{ type := SQLITE_TEXT, text16 := [107] }, { type := SQLITE_TEXT, text16 := [107] }]
      rfl (by decide) (by decide),
   TranslateFuncUtf16_invalid_parameters sampleLoader 1 [{ type := 1, text16 := [55] }]
      rfl (by decide) (by decide)⟩

/-- C9 fails on the code: called with the one text argument "k", which the loader
resolves to the two characters "Hi", the function hands the engine the buffer
"Hi" with its terminator and a byte count of 6, two more than the 4 bytes of the
resolved text, so the result the engine takes is "Hi" followed by a zero character. -/
theorem TranslateFuncUtf16_result_covers_terminator :
    sampleLoader [107] = [72, 105] ∧
    TranslateFuncUtf16 sampleLoader 1 [{ type := SQLITE_TEXT, text16 := [107] }] =
      FuncOutcome.returned
        [ FuncEffect.GetString [107],
          FuncEffect.sqlite3_result_text16 [72, 105, 0] 6 ] ∧
    resultText16 [72, 105, 0] 6 = [72, 105, 0] ∧
    resultText16 [72, 105, 0] 6 ≠ sampleLoader [107] := by
  refine ⟨rfl, rfl, rfl, ?_⟩
  decide

/-- C10: with the primitive returning `c` among 0, 1, 2, 3 for the call made, the
UTF-16 comparator throws exactly when `c = 0`, the exception being the
invalid-argument one, and otherwise returns `c - 2`: -1, 0, 1 for `c` = 1, 2, 3. The
primitive is called once, with the collation language of the connection as locale name
(none, that is the user default, when the language is not set), with the ignore-case
and ignore-diacritic flags, and with each length halved, which for a non-negative byte
length is the byte length divided by 2. -/
theorem WinLocaleCollateUtf16_result (CompareStringEx : CompareCall → Int) (data : Database)
    (str1Length : Int) (str1Data : WChars) (str2Length : Int) (str2Data : WChars) (c : Int)
    (hcall : CompareStringEx
      { localeName := data.collationLanguage
        flags := LINGUISTIC_IGNORECASE ||| LINGUISTIC_IGNOREDIACRITIC
        string1 := str1Data
        count1 := Int.tdiv str1Length 2
        string2 := str2Data
        count2 := Int.tdiv str2Length 2 } = c)
    (hc : c = 0 ∨ c = 1 ∨ c = 2 ∨ c = 3) :
    ((∃ fault,
        (WinLocaleCollateUtf16 CompareStringEx data str1Length str1Data str2Length str2Data).1 =
          .error fault) ↔ c = 0) ∧
    (c = 0 →
      (WinLocaleCollateUtf16 CompareStringEx data str1Length str1Data str2Length str2Data).1 =
        .error Fault.invalidArgument) ∧
    (c ≠ 0 →
      (WinLocaleCollateUtf16 CompareStringEx data str1Length str1Data str2Length str2Data).1 =
        .ok (c - 2) ∧ (c - 2 = -1 ∨ c - 2 = 0 ∨ c - 2 = 1)) ∧
    (WinLocaleCollateUtf16 CompareStringEx data str1Length str1Data str2Length str2Data).2 =
      [{ localeName := data.collationLanguage
         flags := 0x30
         string1 := str1Data
         count1 := Int.tdiv str1Length 2
         string2 := str2Data
         count2 := Int.tdiv str2Length 2 }] ∧
    (0 ≤ str1Length → Int.tdiv str1Length 2 = str1Length / 2) ∧
    (0 ≤ str2Length → Int.tdiv str2Length 2 = str2Length / 2) := by
  have hflags : LINGUISTIC_IGNORECASE ||| LINGUISTIC_IGNOREDIACRITIC = 0x30 := by decide
  refine ⟨?_, ?_, ?_, ?_, fun h => Int.tdiv_eq_ediv h (by decide),
    fun h => Int.tdiv_eq_ediv h (by decide)⟩
  · by_cases h0 : c = 0
    · simp [WinLocaleCollateUtf16, hcall, h0]
    · simp [WinLocaleCollateUtf16, hcall, h0]
  · intro h0
    simp [WinLocaleCollateUtf16, hcall, h0]
  · intro h0
    refine ⟨by simp [WinLocaleCollateUtf16, hcall, h0], ?_⟩
    omega
  · unfold WinLocaleCollateUtf16
    simp only [hcall, hflags]
    split <;> rfl

theorem WinLocaleCollateUtf16_result_witness :
    (WinLocaleCollateUtf16 lengthCompare sampleGerman 2 [97] 4 [97, 98]).1 = .ok (-1) ∧
    (WinLocaleCollateUtf16 lengthCompare sampleGerman 2 [97] 4 [97, 98]).2 =
      [{ localeName := some "de-DE", flags := 0x30, string1 := [97], count1 := 1,
         string2 := [97, 98], count2 := 2 }] ∧
    (WinLocaleCollateUtf16 failingCompare sampleDatabase 2 [97] 2 [98]).1 =
      .error Fault.invalidArgument := by
  have hless := WinLocaleCollateUtf16_result lengthCompare sampleGerman 2 [97] 4 [97, 98] 1 rfl
    (Or.inr (Or.inl rfl))
  have hfail := WinLocaleCollateUtf16_result failingCompare sampleDatabase 2 [97] 2 [98] 0 rfl
    (Or.inl rfl)
  exact ⟨(hless.2.2.1 (by decide)).1, hless.2.2.2.1, hfail.2.1 rfl⟩

end SQLite3
